import Mathlib

/-!
Verification of the GeniusDNA variant-parsing and genotype-risk
classification engine.  Python strings are modelled as Lean `String`
values, with the string operations the code uses (split, strip,
startswith, upper, count, int) re-implemented over the underlying
character lists so that they can be reasoned about by induction.
-/

/-- Python `s.split(sep)` for a single-character separator, on the
underlying character list.  `''.split(sep) = ['']`. -/
def splitOnChar (sep : Char) : List Char → List (List Char)
  | [] => [[]]
  | c :: t =>
    if c = sep then [] :: splitOnChar sep t
    else
      match splitOnChar sep t with
      | [] => [[c]]
      | h :: r => (c :: h) :: r

/-- Python `s.split(sep)` for a single-character separator. -/
def pySplit (sep : Char) (s : String) : List String :=
  (splitOnChar sep s.data).map (fun l => ⟨l⟩)

/-- Python `s.startswith(p)`. -/
def pyStartsWith (s p : String) : Bool :=
  p.data.isPrefixOf s.data

/-- Python `c in s` for a single character. -/
def pyContainsChar (s : String) (c : Char) : Bool :=
  s.data.contains c

/-- Python whitespace (the ASCII part of `str.strip` / `\s`). -/
def pyIsSpace (c : Char) : Bool :=
  c = ' ' || c = '\t' || c = '\n' || c = '\r' || c = '\x0b' || c = '\x0c'

/-- Python `s.strip()`: drop trailing whitespace, then leading whitespace. -/
def pyStrip (s : String) : String :=
  ⟨((s.data.reverse.dropWhile pyIsSpace).reverse).dropWhile pyIsSpace⟩

/-- Python `s[::-1]`. -/
def strReverse (s : String) : String :=
  ⟨s.data.reverse⟩

/-- Python `s.upper()` (ASCII letters). -/
def pyUpper (s : String) : String :=
  ⟨s.data.map Char.toUpper⟩

/-- Python `int(s)` on the digit-string inputs the parsers feed it
(equivalently `int(s) if s.isdigit() else raise`), returning `none`
where Python raises `ValueError`. -/
def pyInt (s : String) : Option Nat :=
  if s.data ≠ [] ∧ s.data.all Char.isDigit then
    some (s.data.foldl (fun n c => 10 * n + (c.toNat - 48)) 0)
  else none

/-- Python `xs.index(x)` for string lists, `none` when absent. -/
def pyIndex (x : String) : List String → Option Nat
  | [] => none
  | y :: t => if y = x then some 0 else (pyIndex x t).map (· + 1)

/-- Python `hay.count(needle)`: number of non-overlapping occurrences of
`needle` in `hay`, scanning left to right (`''` occurs `len + 1` times). -/
def substrCount (needle hay : List Char) : Nat :=
  if needle.isEmpty then hay.length + 1
  else if needle.isPrefixOf hay then
    1 + substrCount needle (hay.drop needle.length)
  else
    match hay with
    | [] => 0
    | _ :: t => substrCount needle t
termination_by hay.length
decreasing_by
  · simp only [List.length_drop]
    rcases hay with _ | ⟨c, t⟩
    · simp [List.isPrefixOf] at *
      rcases needle with _ | _ <;> simp_all [List.isPrefixOf]
    · rcases needle with _ | ⟨n, ns⟩
      · simp_all
      · simp only [List.length_cons]
        omega
  · simp only [List.length_cons]
    omega

theorem substrCount_singleton (c : Char) (l : List Char) :
    substrCount [c] l = l.count c := by
  induction l with
  | nil => rw [substrCount]; rfl
  | cons x t ih =>
    rw [substrCount]
    by_cases h : c = x
    · subst h
      simp [List.isPrefixOf, List.count_cons, ih, Nat.add_comm]
    · simp [List.isPrefixOf, h, List.count_cons, Ne.symm h, ih]

/-! ## app/models/dna.py : enums -/

/-- `FileFormat` from `app/models/dna.py` (detection may also fail, modelled
by `Option FileFormat` as in the Python `Optional` return). -/
inductive FileFormat where
  | TWENTYTHREEANDME
  | VCF
deriving DecidableEq, Repr

/-- `HealthCategory` from `app/models/dna.py`. -/
inductive HealthCategory where
  | LONGEVITY
  | DETOX
  | METABOLISM
  | SKIN_AGING
  | BRAIN_HEALTH
deriving DecidableEq, Repr

/-- `RiskLevel` from `app/models/dna.py`. -/
inductive RiskLevel where
  | LOW
  | MODERATE
  | HIGH
  | PROTECTIVE
deriving DecidableEq, Repr

/-! ## app/data/snp_database.py -/

/-- One value of `SNPDatabase.SNP_DATA`: the `(gene, category,
risk_genotypes, description, recommendations)` tuple.  The free-text
`description` and `recommendations` fields are not consulted by any
operation verified here and are omitted. -/
structure SnpRecord where
  gene : String
  category : HealthCategory
  riskGenotypes : List (String × RiskLevel)
deriving DecidableEq, Repr

/-- `SNPDatabase.SNP_DATA`, keyed by rsid (dict modelled as an
association list with the source's insertion order and unique keys). -/
def snpData : List (String × SnpRecord) :=
  [ ("rs7412", ⟨"APOE", HealthCategory.LONGEVITY,
      [("CC", RiskLevel.PROTECTIVE), ("CT", RiskLevel.LOW), ("TT", RiskLevel.MODERATE)]⟩),
    ("rs429358", ⟨"APOE", HealthCategory.LONGEVITY,
      [("CC", RiskLevel.LOW), ("CT", RiskLevel.MODERATE), ("TT", RiskLevel.HIGH)]⟩),
    ("rs2802292", ⟨"FOXO3", HealthCategory.LONGEVITY,
      [("GG", RiskLevel.PROTECTIVE), ("GT", RiskLevel.LOW), ("TT", RiskLevel.MODERATE)]⟩),
    ("rs1065852", ⟨"CYP1A2", HealthCategory.DETOX,
      [("AA", RiskLevel.LOW), ("AC", RiskLevel.MODERATE), ("CC", RiskLevel.HIGH)]⟩),
    ("rs1801280", ⟨"NAT2", HealthCategory.DETOX,
      [("TT", RiskLevel.LOW), ("TC", RiskLevel.MODERATE), ("CC", RiskLevel.HIGH)]⟩),
    ("rs1695", ⟨"GSTP1", HealthCategory.DETOX,
      [("AA", RiskLevel.LOW), ("AG", RiskLevel.MODERATE), ("GG", RiskLevel.HIGH)]⟩),
    ("rs9939609", ⟨"FTO", HealthCategory.METABOLISM,
      [("TT", RiskLevel.LOW), ("TA", RiskLevel.MODERATE), ("AA", RiskLevel.HIGH)]⟩),
    ("rs1801282", ⟨"PPARG", HealthCategory.METABOLISM,
      [("CC", RiskLevel.MODERATE), ("CG", RiskLevel.LOW), ("GG", RiskLevel.PROTECTIVE)]⟩),
    ("rs17782313", ⟨"MC4R", HealthCategory.METABOLISM,
      [("TT", RiskLevel.LOW), ("TC", RiskLevel.MODERATE), ("CC", RiskLevel.HIGH)]⟩),
    ("rs1800012", ⟨"COL1A1", HealthCategory.SKIN_AGING,
      [("GG", RiskLevel.LOW), ("GT", RiskLevel.MODERATE), ("TT", RiskLevel.HIGH)]⟩),
    ("rs1799750", ⟨"MMP1", HealthCategory.SKIN_AGING,
      [("GG", RiskLevel.LOW), ("G-", RiskLevel.MODERATE), ("--", RiskLevel.HIGH)]⟩),
    ("rs4880", ⟨"SOD2", HealthCategory.SKIN_AGING,
      [("CC", RiskLevel.PROTECTIVE), ("CT", RiskLevel.LOW), ("TT", RiskLevel.MODERATE)]⟩),
    ("rs6265", ⟨"BDNF", HealthCategory.BRAIN_HEALTH,
      [("CC", RiskLevel.LOW), ("CT", RiskLevel.MODERATE), ("TT", RiskLevel.HIGH)]⟩),
    ("rs4680", ⟨"COMT", HealthCategory.BRAIN_HEALTH,
      [("GG", RiskLevel.LOW), ("GA", RiskLevel.MODERATE), ("AA", RiskLevel.HIGH)]⟩) ]

/-- `SNPDatabase.get_snp_info`. -/
def getSnpInfo (rsid : String) : Option SnpRecord :=
  List.lookup rsid snpData

/-- `SNPDatabase.assess_risk`: exact genotype lookup first, then the
character-reversed genotype, defaulting to `LOW`. -/
def assessRisk (rsid genotype : String) : RiskLevel :=
  match getSnpInfo rsid with
  | none => RiskLevel.LOW
  | some info =>
    match List.lookup genotype info.riskGenotypes with
    | some r => r
    | none =>
      match List.lookup (strReverse genotype) info.riskGenotypes with
      | some r => r
      | none => RiskLevel.LOW

theorem strReverse_pair (a b : Char) :
    strReverse ⟨[a, b]⟩ = ⟨[b, a]⟩ := by
  simp [strReverse]

/-- C1: for every knowledge-base entry and two-letter genotype, the
genotype-table risk lookup tries the genotype itself first, then its
character-reversed form, and returns `LOW` when neither is a key;
consequently, when exactly one of `ab`/`ba` is a key, looking up `ab`
and looking up `ba` give the same risk level. -/
theorem assessRisk_reversal_symmetric (rsid : String) (info : SnpRecord) (a b : Char)
    (hinfo : getSnpInfo rsid = some info) :
    (List.lookup (⟨[a, b]⟩ : String) info.riskGenotypes = none →
     List.lookup (⟨[b, a]⟩ : String) info.riskGenotypes = none →
     assessRisk rsid ⟨[a, b]⟩ = RiskLevel.LOW) ∧
    (∀ r : RiskLevel,
     List.lookup (⟨[a, b]⟩ : String) info.riskGenotypes = some r →
     List.lookup (⟨[b, a]⟩ : String) info.riskGenotypes = none →
     assessRisk rsid ⟨[a, b]⟩ = assessRisk rsid ⟨[b, a]⟩) ∧
    (∀ r : RiskLevel,
     List.lookup (⟨[b, a]⟩ : String) info.riskGenotypes = some r →
     List.lookup (⟨[a, b]⟩ : String) info.riskGenotypes = none →
     assessRisk rsid ⟨[a, b]⟩ = assessRisk rsid ⟨[b, a]⟩) := by
  refine ⟨?_, ?_, ?_⟩
  · intro h1 h2
    simp [assessRisk, hinfo, h1, h2, strReverse_pair]
  · intro r h1 h2
    simp [assessRisk, hinfo, h1, h2, strReverse_pair]
  · intro r h1 h2
    simp [assessRisk, hinfo, h1, h2, strReverse_pair]

/-- Witness for C1 on the real database: for `rs7412` only `CT` (not
`TC`) is a key, and both lookups agree. -/
theorem assessRisk_reversal_symmetric_witness :
    assessRisk "rs7412" ⟨['T', 'C']⟩ = assessRisk "rs7412" ⟨['C', 'T']⟩ :=
  (assessRisk_reversal_symmetric "rs7412"
      ⟨"APOE", HealthCategory.LONGEVITY,
        [("CC", RiskLevel.PROTECTIVE), ("CT", RiskLevel.LOW), ("TT", RiskLevel.MODERATE)]⟩
      'T' 'C' (by rfl)).2.2 RiskLevel.LOW (by rfl) (by rfl)

/-- C10: an exact genotype match takes precedence over the reversed-form
match: for every rsid of the database whose entry maps genotype `g` to a
risk level `r`, `assess_risk` returns `r` for `g`. -/
theorem assessRisk_exact_match_first (rsid : String) (info : SnpRecord)
    (g : String) (r : RiskLevel)
    (hinfo : getSnpInfo rsid = some info)
    (hkey : List.lookup g info.riskGenotypes = some r) :
    assessRisk rsid g = r := by
  simp [assessRisk, hinfo, hkey]

/-- Witness for C10: `rs1801280` maps `TC` to `MODERATE`. -/
theorem assessRisk_exact_match_first_witness :
    assessRisk "rs1801280" "TC" = RiskLevel.MODERATE :=
  assessRisk_exact_match_first "rs1801280"
    ⟨"NAT2", HealthCategory.DETOX,
      [("TT", RiskLevel.LOW), ("TC", RiskLevel.MODERATE), ("CC", RiskLevel.HIGH)]⟩
    "TC" RiskLevel.MODERATE (by rfl) (by rfl)

/-! ## genius_dna.py : LongevityEngine._analyze_genotype -/

/-- The `status` string of `LongevityEngine._analyze_genotype`
(`unknown` / `normal` / `carrier` / `at_risk`). -/
inductive GenotypeStatus where
  | unknown
  | normal
  | carrier
  | atRisk
deriving DecidableEq, Repr

/-- The `{status, risk_level}` dict returned by
`LongevityEngine._analyze_genotype`. -/
structure GenotypeAnalysis where
  status : GenotypeStatus
  riskLevel : Nat
deriving DecidableEq, Repr

/-- `LongevityEngine._analyze_genotype`: uppercase everything, return
`unknown`/0 when the risk or normal allele is the `DELETION`
placeholder, otherwise classify by the number of occurrences of the
risk allele in the genotype. -/
def analyzeGenotype (genotype riskAllele normalAllele : String) : GenotypeAnalysis :=
  let g := pyUpper genotype
  let r := pyUpper riskAllele
  let n := pyUpper normalAllele
  if r = "DELETION" ∨ n = "DELETION" then ⟨GenotypeStatus.unknown, 0⟩
  else
    let c := substrCount r.data g.data
    if c = 0 then ⟨GenotypeStatus.normal, 0⟩
    else if c = 1 then ⟨GenotypeStatus.carrier, 1⟩
    else ⟨GenotypeStatus.atRisk, 2⟩

/-- C6: with a single-nucleotide risk allele and a two-letter genotype,
and no `DELETION` marker involved, the classifier maps 0 copies of the
risk nucleotide to `normal`/0, exactly 1 copy to `carrier`/1 and 2
copies to `at_risk`/2 (so the ordinal is monotone in the copy count);
and whenever the risk or normal marker is the deletion placeholder it
returns `unknown` with risk ordinal 0. -/
theorem analyzeGenotype_classifies :
    (∀ (a b rc : Char) (n : String),
      pyUpper ⟨[rc]⟩ ≠ "DELETION" → pyUpper n ≠ "DELETION" →
      (([a.toUpper, b.toUpper].count rc.toUpper = 0 →
          analyzeGenotype ⟨[a, b]⟩ ⟨[rc]⟩ n = ⟨GenotypeStatus.normal, 0⟩) ∧
       ([a.toUpper, b.toUpper].count rc.toUpper = 1 →
          analyzeGenotype ⟨[a, b]⟩ ⟨[rc]⟩ n = ⟨GenotypeStatus.carrier, 1⟩) ∧
       ([a.toUpper, b.toUpper].count rc.toUpper = 2 →
          analyzeGenotype ⟨[a, b]⟩ ⟨[rc]⟩ n = ⟨GenotypeStatus.atRisk, 2⟩))) ∧
    (∀ genotype riskAllele normalAllele : String,
      pyUpper riskAllele = "DELETION" ∨ pyUpper normalAllele = "DELETION" →
      analyzeGenotype genotype riskAllele normalAllele = ⟨GenotypeStatus.unknown, 0⟩) := by
  constructor
  · intro a b rc n hr hn
    have hcount : substrCount (pyUpper ⟨[rc]⟩).data (pyUpper ⟨[a, b]⟩).data
        = [a.toUpper, b.toUpper].count rc.toUpper := by
      simp [pyUpper, substrCount_singleton]
    refine ⟨?_, ?_, ?_⟩ <;> intro hk <;>
      simp [analyzeGenotype, hr, hn, hcount, hk]
  · intro g r n h
    simp [analyzeGenotype, h]

/-- Witness for C6: `AG` with risk allele `G` is a carrier (1 copy), and
a `deletion` marker yields `unknown`/0. -/
theorem analyzeGenotype_classifies_witness :
    analyzeGenotype ⟨['A', 'G']⟩ ⟨['G']⟩ "A" = ⟨GenotypeStatus.carrier, 1⟩ ∧
    analyzeGenotype "GG" "deletion" "present" = ⟨GenotypeStatus.unknown, 0⟩ :=
  ⟨(analyzeGenotype_classifies.1 'A' 'G' 'G' "A" (by decide) (by decide)).2.1 (by decide),
   analyzeGenotype_classifies.2 "GG" "deletion" "present" (Or.inl (by rfl))⟩

/-! ## ai/protocols/longevity_optimizer.py -/

/-- The per-sample genotype dict produced by the VCF layer and consumed
by `LongevityOptimizer` (`GT` display string, `phased` flag, decoded
allele indices where `None` marks a missing allele). -/
structure GenotypeData where
  gt : Option String
  phased : Bool
  alleles : List (Option Nat)
deriving DecidableEq, Repr

/-- One variant dict handed to `LongevityOptimizer.analyze_sample`:
`rsid`, `genotype`, reference allele (`variant.get('ref', '')`) and the
comma-split alternate-allele list (`variant.get('alt', [])`). -/
structure VariantIn where
  rsid : Option String
  genotype : GenotypeData
  ref : String
  alt : List String
deriving DecidableEq, Repr

/-- One SNP-database entry consumed by `LongevityOptimizer`
(`gene`, `description`, `category` may be absent from the JSON record,
hence `Option`). -/
structure SnpEntry where
  gene : Option String
  description : Option String
  category : Option String
  riskAlleles : List String
  recommendations : List String
deriving DecidableEq, Repr

/-- `LongevityOptimizer._check_risk_alleles`: scan the allele indices;
`None` is skipped, index 0 resolves to the reference allele, an index
within the alternate list resolves to `alt_list[idx-1]`, an
out-of-range index is skipped; return true on the first resolved
nucleotide found among the risk alleles. -/
def checkRiskAlleles (riskAlleles : List String) (ref : String) (altList : List String) :
    List (Option Nat) → Bool
  | [] => false
  | none :: rest => checkRiskAlleles riskAlleles ref altList rest
  | some idx :: rest =>
    if idx = 0 then
      if ref ∈ riskAlleles then true
      else checkRiskAlleles riskAlleles ref altList rest
    else if idx ≤ altList.length then
      if altList.getD (idx - 1) "" ∈ riskAlleles then true
      else checkRiskAlleles riskAlleles ref altList rest
    else checkRiskAlleles riskAlleles ref altList rest

/-- `LongevityOptimizer._count_risk_alleles`: same resolution rule as
`_check_risk_alleles`, counting the resolved alleles that are risk
alleles. -/
def countRiskAlleles (riskAlleles : List String) (ref : String) (altList : List String) :
    List (Option Nat) → Nat
  | [] => 0
  | none :: rest => countRiskAlleles riskAlleles ref altList rest
  | some idx :: rest =>
    if idx = 0 then
      if ref ∈ riskAlleles then countRiskAlleles riskAlleles ref altList rest + 1
      else countRiskAlleles riskAlleles ref altList rest
    else if idx ≤ altList.length then
      if altList.getD (idx - 1) "" ∈ riskAlleles then
        countRiskAlleles riskAlleles ref altList rest + 1
      else countRiskAlleles riskAlleles ref altList rest
    else countRiskAlleles riskAlleles ref altList rest

/-- C4: in the risk-allele counter, allele index 0 resolves to the
reference allele; an index `k` with `1 ≤ k ≤ length(alt)` resolves to
`alt[k-1]`; an out-of-range index is skipped while the rest of the
variant is still processed; and a missing-marker allele is never
counted as a risk allele. -/
theorem countRiskAlleles_resolution :
    (∀ (risk : List String) (ref : String) (alt : List String) (rest : List (Option Nat)),
      countRiskAlleles risk ref alt (some 0 :: rest) =
        if ref ∈ risk then countRiskAlleles risk ref alt rest + 1
        else countRiskAlleles risk ref alt rest) ∧
    (∀ (risk : List String) (ref : String) (alt : List String) (k : Nat)
        (rest : List (Option Nat)), 1 ≤ k → k ≤ alt.length →
      countRiskAlleles risk ref alt (some k :: rest) =
        if alt.getD (k - 1) "" ∈ risk then countRiskAlleles risk ref alt rest + 1
        else countRiskAlleles risk ref alt rest) ∧
    (∀ (risk : List String) (ref : String) (alt : List String) (k : Nat)
        (rest : List (Option Nat)), alt.length < k →
      countRiskAlleles risk ref alt (some k :: rest) =
        countRiskAlleles risk ref alt rest) ∧
    (∀ (risk : List String) (ref : String) (alt : List String) (rest : List (Option Nat)),
      countRiskAlleles risk ref alt (none :: rest) =
        countRiskAlleles risk ref alt rest) := by
  refine ⟨?_, ?_, ?_, ?_⟩
  · intro risk ref alt rest
    simp [countRiskAlleles]
  · intro risk ref alt k rest hk1 hk2
    have hk0 : ¬ k = 0 := by omega
    simp [countRiskAlleles, hk0, hk2]
  · intro risk ref alt k rest hk
    have hk0 : ¬ k = 0 := by omega
    have hk2 : ¬ k ≤ alt.length := by omega
    simp [countRiskAlleles, hk0, hk2]
  · intro risk ref alt rest
    simp [countRiskAlleles]

/-- Witness for C4 at concrete inputs: `REF=C`, `ALT=[T]`, risk allele
`T`; index 1 resolves to `T` and counts, index 5 is out of range and is
skipped, the missing marker is skipped. -/
theorem countRiskAlleles_resolution_witness :
    countRiskAlleles ["T"] "C" ["T"] [some 1, some 5, none] =
      (if ["T"].getD 0 "" ∈ ["T"]
       then countRiskAlleles ["T"] "C" ["T"] [some 5, none] + 1
       else countRiskAlleles ["T"] "C" ["T"] [some 5, none]) :=
  countRiskAlleles_resolution.2.1 ["T"] "C" ["T"] 1 [some 5, none]
    (by decide) (by decide)

/-- One entry of the `risk_variants` list built by
`LongevityOptimizer.analyze_sample`. -/
structure RiskVariant where
  rsid : String
  gene : Option String
  description : Option String
  category : Option String
  riskCount : Nat
  genotype : Option String
  phased : Bool
deriving DecidableEq, Repr

/-- The analysis dict returned by `LongevityOptimizer.analyze_sample`
(`recommendations` is deduplicated with `list(set(...))`, modelled as a
`Finset`; `categories` is an insertion-ordered dict of rsid lists). -/
structure SampleAnalysis where
  sampleName : String
  totalVariantsAnalyzed : Nat
  riskVariantsFound : Nat
  riskVariants : List RiskVariant
  recommendations : Finset String
  categories : List (String × List String)
  databaseVersion : String
deriving DecidableEq

/-- `categories[category].append(rsid)` on an insertion-ordered dict. -/
def addToCategory (cats : List (String × List String)) (cat rsid : String) :
    List (String × List String) :=
  match cats with
  | [] => [(cat, [rsid])]
  | (c, l) :: rest =>
    if c = cat then (c, l ++ [rsid]) :: rest
    else (c, l) :: addToCategory rest cat rsid

/-- One iteration of the `analyze_sample` loop: skip the variant when
its rsid is falsy or absent from the SNP database; otherwise, when the
sample has a risk allele, extend the risk-variant list, the
recommendation list and the per-category rsid lists. -/
def analyzeStep (db : List (String × SnpEntry))
    (acc : List RiskVariant × List String × List (String × List String))
    (v : VariantIn) : List RiskVariant × List String × List (String × List String) :=
  match v.rsid with
  | none => acc
  | some rsid =>
    if rsid = "" then acc
    else
      match List.lookup rsid db with
      | none => acc
      | some info =>
        if checkRiskAlleles info.riskAlleles v.ref v.alt v.genotype.alleles then
          (acc.1 ++ [⟨rsid, info.gene, info.description, info.category,
                      countRiskAlleles info.riskAlleles v.ref v.alt v.genotype.alleles,
                      v.genotype.gt, v.genotype.phased⟩],
           acc.2.1 ++ info.recommendations,
           addToCategory acc.2.2 (info.category.getD "other") rsid)
        else acc

/-- `LongevityOptimizer.analyze_sample`. -/
def analyzeSample (db : List (String × SnpEntry)) (metaVersion : String)
    (sampleVariants : List VariantIn) (sampleName : String) : SampleAnalysis :=
  let res := sampleVariants.foldl (analyzeStep db) ([], [], [])
  { sampleName := sampleName
    totalVariantsAnalyzed := sampleVariants.length
    riskVariantsFound := res.1.length
    riskVariants := res.1
    recommendations := res.2.1.toFinset
    categories := res.2.2
    databaseVersion := metaVersion }

/-- The loop guard of `analyze_sample`: the variant has a truthy rsid
that is a key of the SNP database. -/
def rsidKnown (db : List (String × SnpEntry)) (v : VariantIn) : Bool :=
  match v.rsid with
  | none => false
  | some r => !(r == "") && (List.lookup r db).isSome

theorem analyzeStep_skip (db : List (String × SnpEntry))
    (acc : List RiskVariant × List String × List (String × List String))
    (v : VariantIn) (h : rsidKnown db v = false) :
    analyzeStep db acc v = acc := by
  unfold rsidKnown at h
  cases hv : v.rsid with
  | none => simp [analyzeStep, hv]
  | some r =>
    rw [hv] at h
    by_cases hr : r = ""
    · simp [analyzeStep, hv, hr]
    · cases hl : List.lookup r db with
      | none => simp [analyzeStep, hv, hr, hl]
      | some info =>
        exfalso
        simp [hr, hl] at h

theorem analyzeStep_rsid_known (db : List (String × SnpEntry))
    (acc : List RiskVariant × List String × List (String × List String))
    (v : VariantIn)
    (hacc : ∀ rv ∈ acc.1, (List.lookup rv.rsid db).isSome) :
    ∀ rv ∈ (analyzeStep db acc v).1, (List.lookup rv.rsid db).isSome := by
  intro rv hrv
  cases hv : v.rsid with
  | none =>
    have heq : analyzeStep db acc v = acc := by simp [analyzeStep, hv]
    rw [heq] at hrv
    exact hacc rv hrv
  | some r =>
    by_cases hr : r = ""
    · have heq : analyzeStep db acc v = acc := by simp [analyzeStep, hv, hr]
      rw [heq] at hrv
      exact hacc rv hrv
    · cases hl : List.lookup r db with
      | none =>
        have heq : analyzeStep db acc v = acc := by simp [analyzeStep, hv, hr, hl]
        rw [heq] at hrv
        exact hacc rv hrv
      | some info =>
        by_cases hc : checkRiskAlleles info.riskAlleles v.ref v.alt v.genotype.alleles = true
        · have heq : analyzeStep db acc v =
              (acc.1 ++ [⟨r, info.gene, info.description, info.category,
                  countRiskAlleles info.riskAlleles v.ref v.alt v.genotype.alleles,
                  v.genotype.gt, v.genotype.phased⟩],
               acc.2.1 ++ info.recommendations,
               addToCategory acc.2.2 (info.category.getD "other") r) := by
            simp [analyzeStep, hv, hr, hl, hc]
          rw [heq] at hrv
          rcases List.mem_append.mp hrv with hmem | hmem
          · exact hacc rv hmem
          · have hrveq : rv = ⟨r, info.gene, info.description, info.category,
                countRiskAlleles info.riskAlleles v.ref v.alt v.genotype.alleles,
                v.genotype.gt, v.genotype.phased⟩ := by simpa using hmem
            rw [hrveq]
            simp [hl]
        · have heq : analyzeStep db acc v = acc := by simp [analyzeStep, hv, hr, hl, hc]
          rw [heq] at hrv
          exact hacc rv hrv

theorem foldl_analyzeStep_filter (db : List (String × SnpEntry))
    (vs : List VariantIn) :
    ∀ acc, (vs.filter (rsidKnown db)).foldl (analyzeStep db) acc =
      vs.foldl (analyzeStep db) acc := by
  induction vs with
  | nil => intro acc; rfl
  | cons v t ih =>
    intro acc
    by_cases hv : rsidKnown db v
    · simp [List.filter_cons, hv, ih]
    · simp only [Bool.not_eq_true] at hv
      simp [List.filter_cons, hv, ih, analyzeStep_skip db acc v hv]

/-- C8: a variant whose rsid is absent from the knowledge base never
contributes a risk-variant entry (filtering such variants out leaves
the risk-variant list unchanged, and every produced entry carries a
database rsid) and raises no error, yet every supplied variant counts
toward `total_variants_analyzed`, which equals the input length. -/
theorem analyzeSample_unknown_rsids (db : List (String × SnpEntry))
    (metaVersion : String) (vs : List VariantIn) (name : String) :
    (analyzeSample db metaVersion vs name).totalVariantsAnalyzed = vs.length ∧
    (∀ rv ∈ (analyzeSample db metaVersion vs name).riskVariants,
      ∃ e, List.lookup rv.rsid db = some e) ∧
    (analyzeSample db metaVersion (vs.filter (rsidKnown db)) name).riskVariants =
      (analyzeSample db metaVersion vs name).riskVariants := by
  refine ⟨rfl, ?_, ?_⟩
  · have main : ∀ (l : List VariantIn)
        (acc : List RiskVariant × List String × List (String × List String)),
        (∀ rv ∈ acc.1, (List.lookup rv.rsid db).isSome) →
        ∀ rv ∈ (l.foldl (analyzeStep db) acc).1, (List.lookup rv.rsid db).isSome := by
      intro l
      induction l with
      | nil => intro acc hacc; exact hacc
      | cons v t ih =>
        intro acc hacc
        exact ih (analyzeStep db acc v) (analyzeStep_rsid_known db acc v hacc)
    intro rv hrv
    have := main vs ([], [], []) (by simp) rv hrv
    exact Option.isSome_iff_exists.mp this
  · simp [analyzeSample, foldl_analyzeStep_filter]

/-- Witness for C8: a two-variant input with one known rsid (`rs1`) and
one unknown (`rs999`); the counter sees both variants and the known
rsid is a database key. -/
theorem analyzeSample_unknown_rsids_witness :
    (analyzeSample [("rs1", ⟨none, none, none, ["T"], []⟩)] "v1"
      [⟨some "rs1", ⟨some "0/1", false, [some 0, some 1]⟩, "C", ["T"]⟩,
       ⟨some "rs999", ⟨some "1/1", false, [some 1, some 1]⟩, "C", ["T"]⟩]
      "S1").totalVariantsAnalyzed = 2 ∧
    ∃ e, List.lookup "rs1" [("rs1", (⟨none, none, none, ["T"], []⟩ : SnpEntry))] = some e :=
  ⟨(analyzeSample_unknown_rsids [("rs1", ⟨none, none, none, ["T"], []⟩)] "v1"
      [⟨some "rs1", ⟨some "0/1", false, [some 0, some 1]⟩, "C", ["T"]⟩,
       ⟨some "rs999", ⟨some "1/1", false, [some 1, some 1]⟩, "C", ["T"]⟩] "S1").1,
   (analyzeSample_unknown_rsids [("rs1", ⟨none, none, none, ["T"], []⟩)] "v1"
      [⟨some "rs1", ⟨some "0/1", false, [some 0, some 1]⟩, "C", ["T"]⟩,
       ⟨some "rs999", ⟨some "1/1", false, [some 1, some 1]⟩, "C", ["T"]⟩] "S1").2.1
     ⟨"rs1", none, none, none, 1, some "0/1", false⟩ (by decide)⟩

/-- A sample's set of risk rsids, `set(v['rsid'] for v in a['risk_variants'])`. -/
def riskSet (a : SampleAnalysis) : Finset String :=
  (a.riskVariants.map RiskVariant.rsid).toFinset

/-- The comparison dict returned by `LongevityOptimizer.compare_samples`
(`shared_risks` and the per-sample `unique_risks` are Python sets). -/
structure Comparison where
  samples : List String
  sharedRisks : Finset String
  uniqueRisks : List (String × Finset String)
deriving DecidableEq

/-- `set.intersection(*sets)` over a nonempty list of sets. -/
def interAll : List (Finset String) → Finset String
  | [] => ∅
  | h :: t => t.foldl (· ∩ ·) h

/-- `LongevityOptimizer.compare_samples`: the shared risk set is the
intersection of all samples' risk-rsid sets when more than one analysis
is supplied (empty otherwise), and each sample's unique set is its own
risk set minus the shared set. -/
def compareSamples (analyses : List SampleAnalysis) : Comparison :=
  let allRiskRsids := analyses.map riskSet
  if allRiskRsids.isEmpty then
    { samples := analyses.map SampleAnalysis.sampleName
      sharedRisks := ∅
      uniqueRisks := [] }
  else
    let shared := if 1 < allRiskRsids.length then interAll allRiskRsids else ∅
    { samples := analyses.map SampleAnalysis.sampleName
      sharedRisks := shared
      uniqueRisks := analyses.map (fun a => (a.sampleName, riskSet a \ shared)) }

theorem mem_foldl_inter (x : String) (l : List (Finset String)) :
    ∀ init : Finset String,
      (x ∈ l.foldl (· ∩ ·) init ↔ x ∈ init ∧ ∀ s ∈ l, x ∈ s) := by
  induction l with
  | nil => intro init; simp
  | cons h t ih =>
    intro init
    simp only [List.foldl_cons, ih, Finset.mem_inter, List.mem_cons]
    constructor
    · rintro ⟨⟨hx1, hx2⟩, hx3⟩
      exact ⟨hx1, fun s hs => hs.elim (fun e => e ▸ hx2) (hx3 s)⟩
    · rintro ⟨hx1, hx2⟩
      exact ⟨⟨hx1, hx2 h (Or.inl rfl)⟩, fun s hs => hx2 s (Or.inr hs)⟩

/-- C7: with two or more analyses, `shared_risks` is the intersection of
all samples' risk-rsid sets (hence a subset of each sample's risk set)
and each sample's unique set is its risk set minus the shared set; with
exactly one analysis, `shared_risks` is empty and the sample's unique
set is its full risk set. -/
theorem compareSamples_shared_and_unique (analyses : List SampleAnalysis) :
    (2 ≤ analyses.length →
      (∀ x, x ∈ (compareSamples analyses).sharedRisks ↔
        ∀ a ∈ analyses, x ∈ riskSet a) ∧
      (∀ a ∈ analyses, (compareSamples analyses).sharedRisks ⊆ riskSet a) ∧
      (compareSamples analyses).uniqueRisks =
        analyses.map (fun a =>
          (a.sampleName, riskSet a \ (compareSamples analyses).sharedRisks))) ∧
    (analyses.length = 1 →
      (compareSamples analyses).sharedRisks = ∅ ∧
      (compareSamples analyses).uniqueRisks =
        analyses.map (fun a => (a.sampleName, riskSet a))) := by
  constructor
  · intro h2
    obtain ⟨a0, a1, rest, rfl⟩ : ∃ a0 a1 rest, analyses = a0 :: a1 :: rest := by
      cases analyses with
      | nil => simp at h2
      | cons a t =>
        cases t with
        | nil => simp at h2
        | cons b u => exact ⟨a, b, u, rfl⟩
    have hlen : 1 < ((a0 :: a1 :: rest).map riskSet).length := by
      simp
    have hshared : (compareSamples (a0 :: a1 :: rest)).sharedRisks
        = ((a1 :: rest).map riskSet).foldl (· ∩ ·) (riskSet a0) := by
      simp [compareSamples, hlen, interAll]
    have hmem : ∀ x, x ∈ (compareSamples (a0 :: a1 :: rest)).sharedRisks ↔
        ∀ a ∈ a0 :: a1 :: rest, x ∈ riskSet a := by
      intro x
      rw [hshared, mem_foldl_inter]
      constructor
      · rintro ⟨hx0, hxs⟩ a ha
        rcases List.mem_cons.mp ha with h | h
        · exact h ▸ hx0
        · exact hxs (riskSet a) (List.mem_map.mpr ⟨a, h, rfl⟩)
      · intro hall
        refine ⟨hall a0 (List.mem_cons_self a0 (a1 :: rest)), ?_⟩
        intro s hs
        obtain ⟨a, ha, rfl⟩ := List.mem_map.mp hs
        exact hall a (List.mem_cons_of_mem a0 ha)
    refine ⟨hmem, ?_, ?_⟩
    · intro a ha x hx
      exact (hmem x).mp hx a ha
    · simp [compareSamples, hlen]
  · intro h1
    obtain ⟨a0, rfl⟩ : ∃ a0, analyses = [a0] := by
      cases analyses with
      | nil => simp at h1
      | cons a t =>
        cases t with
        | nil => exact ⟨a, rfl⟩
        | cons b u => simp at h1
    constructor
    · simp [compareSamples]
    · simp [compareSamples]

/-- Witness for C7: two concrete analyses; the shared set is contained
in the first sample's risk set. -/
theorem compareSamples_shared_and_unique_witness :
    (compareSamples
        [⟨"Alice", 1, 1, [⟨"rs1", none, none, none, 2, some "1|1", true⟩], ∅, [], "v"⟩,
         ⟨"Bob", 2, 1, [⟨"rs1", none, none, none, 1, some "0|1", true⟩], ∅, [], "v"⟩]).sharedRisks
      ⊆ riskSet ⟨"Alice", 1, 1, [⟨"rs1", none, none, none, 2, some "1|1", true⟩], ∅, [], "v"⟩ :=
  ((compareSamples_shared_and_unique
      [⟨"Alice", 1, 1, [⟨"rs1", none, none, none, 2, some "1|1", true⟩], ∅, [], "v"⟩,
       ⟨"Bob", 2, 1, [⟨"rs1", none, none, none, 1, some "0|1", true⟩], ∅, [], "v"⟩]).1
    (by simp)).2.1
    ⟨"Alice", 1, 1, [⟨"rs1", none, none, none, 2, some "1|1", true⟩], ∅, [], "v"⟩
    (by simp)

/-! ## app/parsers/dna_parser.py : DNAParser.parse_vcf -/

/-- The genotype-token split inlined in `DNAParser.parse_vcf`
(app/parsers/dna_parser.py): split on `/` if present, else on `|`,
else repeat the token twice. -/
def appSplitGT (gt : String) : List String :=
  if pyContainsChar gt '/' then pySplit '/' gt
  else if pyContainsChar gt '|' then pySplit '|' gt
  else [gt, gt]

/-- One loop iteration of `DNAParser.parse_vcf`
(app/parsers/dna_parser.py): produces the `(rsid, chromosome, position,
genotype)` tuple appended for the line, or `none` when the line is
skipped (comment, blank, too few columns, bad position, missing
genotype).  Allele characters are mapped through
`{'0': ref, '1': alt}` with default `ref`, where `alt` is the raw `ALT`
column string. -/
def appParseVcfLine (line : String) : Option (String × String × Nat × String) :=
  if pyStartsWith line "#" then none
  else if pyStrip line = "" then none
  else
    let parts := pySplit '\t' line
    if 10 ≤ parts.length then
      match pyInt (parts.getD 1 "") with
      | none => none
      | some position =>
        let chromosome := parts.getD 0 ""
        let rsid := if pyStartsWith (parts.getD 2 "") "rs" then parts.getD 2 ""
                    else "rs" ++ parts.getD 1 ""
        let ref := parts.getD 3 ""
        let alt := parts.getD 4 ""
        let formatFields := pySplit ':' (parts.getD 8 "")
        let sampleData := pySplit ':' (parts.getD 9 "")
        if "GT" ∈ formatFields then
          match sampleData.get? ((pyIndex "GT" formatFields).getD 0) with
          | none => none
          | some gt =>
            let genotype : String :=
              ⟨((appSplitGT gt).map (fun a =>
                  if a = "0" then ref.data
                  else if a = "1" then alt.data
                  else ref.data)).flatten⟩
            if genotype ≠ "--" then some (rsid, chromosome, position, genotype)
            else none
        else none
    else none

/-- `DNAParser.parse_vcf` (app/parsers/dna_parser.py) over the whole
file content. -/
def appParseVcf (content : String) : List (String × String × Nat × String) :=
  (pySplit '\n' (pyStrip content)).filterMap appParseVcfLine

/-! ## genius_dna.py : DNAParser.parse_vcf -/

/-- The `SNP` dataclass of genius_dna.py (`position` is kept as the raw
string there). -/
structure GSNP where
  rsid : String
  chromosome : String
  position : String
  genotype : String
deriving DecidableEq, Repr

/-- `DNAParser._vcf_genotype_to_alleles` (genius_dna.py): normalize the
phased separator to `/`, return the missing pair when no separator
remains, and resolve `.`/`0`/`1`/other to `-`/REF/first comma-split
ALT/`-`. -/
def vcfGenotypeToAlleles (gtCode ref alt : String) : String :=
  let g : List Char := gtCode.data.map (fun c => if c = '|' then '/' else c)
  if ¬ g.contains '/' then "--"
  else
    ⟨((splitOnChar '/' g).map (fun a =>
        if a = ['.'] then ['-']
        else if a = ['0'] then ref.data
        else if a = ['1'] then ((pySplit ',' alt).getD 0 "").data
        else ['-'])).flatten⟩

/-- One loop iteration of `DNAParser.parse_vcf` (genius_dna.py):
`ok none` when the line contributes no dict entry, `ok (some (rsid,
snp))` when it contributes one, `error` where the Python code would
raise an uncaught `IndexError` (sample column shorter than the
genotype-tag index).  The `ID` column is kept only when it is not `.`
(`rsid = parts[2] if parts[2] != '.' else None`) and an entry is stored
only under a truthy rsid starting with `rs`. -/
def geniusParseVcfLine (line : String) : Except Unit (Option (String × GSNP)) :=
  let l := pyStrip line
  if pyStartsWith l "##" then Except.ok none
  else if pyStartsWith l "#CHROM" then Except.ok none
  else if l = "" then Except.ok none
  else
    let parts := pySplit '\t' l
    if 5 ≤ parts.length then
      let chrom := parts.getD 0 ""
      let pos := parts.getD 1 ""
      let rsid : Option String :=
        if parts.getD 2 "" ≠ "." then some (parts.getD 2 "") else none
      let ref := parts.getD 3 ""
      let alt := parts.getD 4 ""
      if 10 ≤ parts.length then
        let formatFields := pySplit ':' (parts.getD 8 "")
        let sampleData := pySplit ':' (parts.getD 9 "")
        if "GT" ∈ formatFields then
          match sampleData.get? ((pyIndex "GT" formatFields).getD 0) with
          | none => Except.error ()
          | some genotypeCode =>
            let genotype := vcfGenotypeToAlleles genotypeCode ref alt
            match rsid with
            | some r =>
              if pyStartsWith r "rs" then
                Except.ok (some (r, ⟨r, chrom, pos, genotype⟩))
              else Except.ok none
            | none => Except.ok none
        else Except.ok none
      else Except.ok none
    else Except.ok none

/-- C2 counterexample: the app-layer VCF parser synthesizes an
identifier from the position column when the `ID` column is the
placeholder `.`: the parsed record carries rsid `rs123` invented from
position `123`. -/
theorem appParseVcf_synthesizes_rsid :
    appParseVcf "1\t123\t.\tC\tT\t.\tPASS\t.\tGT\t0/1"
      = [("rs123", "1", 123, "CT")] := by rfl

/-- C2 (amended): in the genius_dna VCF parser, a data line whose `ID`
column is `.` has its rsid left unset and never yields a variant
record; no identifier is synthesized from the position column. -/
theorem geniusParseVcfLine_dot_id (line : String) (e : String × GSNP)
    (hdot : (pySplit '\t' (pyStrip line)).getD 2 "" = ".") :
    geniusParseVcfLine line ≠ Except.ok (some e) := by
  intro hcontra
  simp only [geniusParseVcfLine] at hcontra
  repeat' split at hcontra
  all_goals simp_all

/-- Witness for the amended C2 at a concrete `.`-ID line. -/
theorem geniusParseVcfLine_dot_id_witness :
    geniusParseVcfLine "1\t123\t.\tC\tT\t.\tPASS\t.\tGT\t0/1"
      ≠ Except.ok (some ("rs123", ⟨"rs123", "1", "123", "CT"⟩)) :=
  geniusParseVcfLine_dot_id "1\t123\t.\tC\tT\t.\tPASS\t.\tGT\t0/1"
    ("rs123", ⟨"rs123", "1", "123", "CT"⟩) (by rfl)

/-! ## tests/test_vcf_multisample.py : MockVCFParser._parse_genotype -/

/-- The `GT` entry built by `MockVCFParser._parse_genotype` for a
sample's genotype token: the raw token, the phased flag, and the
decoded allele indices (`int(a) if a.isdigit() else None`). -/
structure MockGT where
  gt : String
  phased : Bool
  alleles : List (Option Nat)
deriving DecidableEq, Repr

/-- The genotype-token branch of `MockVCFParser._parse_genotype`:
`phased = '|' in value`; split on `|` if present, else on `/`, else
keep the token as a single-element list. -/
def mockParseGT (value : String) : MockGT :=
  let alleles :=
    if pyContainsChar value '|' then pySplit '|' value
    else if pyContainsChar value '/' then pySplit '/' value
    else [value]
  { gt := value
    phased := pyContainsChar value '|'
    alleles := alleles.map pyInt }

/-- C3 counterexample: the app-layer parser's inline genotype split
duplicates a separator-free token into two copies (and resolves both),
so the decoded allele sequence has two elements, not one. -/
theorem appSplitGT_duplicates_single_allele :
    appSplitGT "1" = ["1", "1"] ∧
    appParseVcf "1\t5\trs9\tC\tT\t.\t.\t.\tGT\t1" = [("rs9", "1", 5, "TT")] :=
  ⟨rfl, rfl⟩

/-- C3 (amended): in the multi-sample genotype decoder, a token
containing `|` is split on `|` with `phased = true`; otherwise a token
containing `/` is split on `/` with `phased = false`; a token with
neither separator decodes to a single-element allele sequence.  (The
app-layer parser's inline decoder instead checks `/` first and
duplicates a separator-free token into two copies.) -/
theorem mockParseGT_decoding (v : String) :
    (pyContainsChar v '|' = true →
      (mockParseGT v).phased = true ∧
      (mockParseGT v).alleles = (pySplit '|' v).map pyInt) ∧
    (pyContainsChar v '|' = false → pyContainsChar v '/' = true →
      (mockParseGT v).phased = false ∧
      (mockParseGT v).alleles = (pySplit '/' v).map pyInt) ∧
    (pyContainsChar v '|' = false → pyContainsChar v '/' = false →
      (mockParseGT v).alleles.length = 1) := by
  refine ⟨?_, ?_, ?_⟩
  · intro h
    simp [mockParseGT, h]
  · intro h1 h2
    simp [mockParseGT, h1, h2]
  · intro h1 h2
    simp [mockParseGT, h1, h2]

/-- Witness for the amended C3 at the phased token `0|1`. -/
theorem mockParseGT_decoding_witness :
    (mockParseGT "0|1").phased = true ∧
    (mockParseGT "0|1").alleles = (pySplit '|' "0|1").map pyInt :=
  (mockParseGT_decoding "0|1").1 (by rfl)

/-- C5 counterexample: the app-layer VCF parser does not comma-split a
multi-allelic `ALT` field; for sample genotype `1|1` with `ALT=G,A` the
resolved genotype is the comma-joined string `G,AG,A`, not `GG`. -/
theorem appParseVcf_unsplit_alt :
    appParseVcf "1\t82154\trs4477212\tC\tG,A\t.\tPASS\t.\tGT\t1|1"
      = [("rs4477212", "1", 82154, "G,AG,A")] := by rfl

/-- C5 (amended): the genius_dna genotype converter comma-splits the
`ALT` field before resolution, taking the first alternate for allele
index 1, so `1|1` (or `1/1`) with `ALT=G,A` resolves to `GG`, never to
a string containing the unsplit comma-joined `ALT`. -/
theorem vcfGenotypeToAlleles_comma_splits :
    vcfGenotypeToAlleles "1|1" "C" "G,A" = "GG" ∧
    vcfGenotypeToAlleles "1/1" "C" "G,A" = "GG" :=
  ⟨rfl, rfl⟩

/-! ## app/parsers/dna_parser.py : DNAParser.detect_format -/

/-- `re.match(r'^rs\d+\s+', line)` as a Boolean: the line begins with
`rs`, then at least one ASCII digit, then a whitespace character. -/
def rsDataLine (l : String) : Bool :=
  match l.data with
  | 'r' :: 's' :: rest =>
    !(rest.takeWhile Char.isDigit).isEmpty &&
      (match rest.drop (rest.takeWhile Char.isDigit).length with
       | c :: _ => pyIsSpace c
       | [] => false)
  | _ => false

/-- The final loop of `DNAParser.detect_format`: skip comment lines,
return 23andMe on the first line matching `^rs\d+\s+`, else fall
through to `None`. -/
def scanForRsLine : List String → Option FileFormat
  | [] => none
  | l :: rest =>
    if pyStartsWith l "#" then scanForRsLine rest
    else if rsDataLine l then some FileFormat.TWENTYTHREEANDME
    else scanForRsLine rest

/-- The branch structure of `DNAParser.detect_format` over the computed
line list `lines = content.strip().split('\n')`. -/
def detectFormatLines (lines : List String) : Option FileFormat :=
  if !lines.isEmpty && pyStartsWith (lines.headD "") "##fileformat=VCF" then
    some FileFormat.VCF
  else if (lines.take 50).any (fun l => pyStartsWith l "# rsid") then
    some FileFormat.TWENTYTHREEANDME
  else scanForRsLine lines

/-- `DNAParser.detect_format` (app/parsers/dna_parser.py). -/
def detectFormat (content : String) : Option FileFormat :=
  detectFormatLines (pySplit '\n' (pyStrip content))

/-- The decision order exactly as the specification words it, over a
given line list: if the first non-empty line starts with the VCF
header prefix, VCF; else if any of the first 50 lines is a comment line
announcing the 23andMe column header (`# rsid`), 23andMe; else if any
non-comment line begins with an rs-identifier followed by whitespace,
23andMe; else undetected. -/
def detectFormatSpecLines (lines : List String) : Option FileFormat :=
  if (match lines.find? (fun l => !(l == "")) with
      | some l => pyStartsWith l "##fileformat=VCF"
      | none => false) then
    some FileFormat.VCF
  else if (lines.take 50).any (fun l => pyStartsWith l "# rsid") then
    some FileFormat.TWENTYTHREEANDME
  else if lines.any (fun l => !pyStartsWith l "#" && rsDataLine l) then
    some FileFormat.TWENTYTHREEANDME
  else none

/-- The specification's decision order applied to the raw text's lines,
reading "line" literally as the substrings between newlines. -/
def detectFormatSpec (content : String) : Option FileFormat :=
  detectFormatSpecLines (pySplit '\n' content)

/-- The specification's decision order applied to the lines of the
whitespace-stripped text (the amendment C9 needs). -/
def detectFormatSpecStripped (content : String) : Option FileFormat :=
  detectFormatSpecLines (pySplit '\n' (pyStrip content))

/-- C9 counterexample: on `" ##fileformat=VCFv4.2"` (leading space) the
code strips the text and classifies VCF, while the claim's decision
order sees a first non-empty line that does not start with the VCF
prefix and ends undetected. -/
theorem detectFormat_strip_deviation :
    detectFormat " ##fileformat=VCFv4.2" = some FileFormat.VCF ∧
    detectFormatSpec " ##fileformat=VCFv4.2" = none := by
  constructor <;> rfl

theorem scanForRsLine_eq_any (ls : List String) :
    scanForRsLine ls =
      if ls.any (fun l => !pyStartsWith l "#" && rsDataLine l) then
        some FileFormat.TWENTYTHREEANDME
      else none := by
  induction ls with
  | nil => rfl
  | cons l rest ih =>
    by_cases h1 : pyStartsWith l "#" = true
    · simp [scanForRsLine, h1, ih]
    · by_cases h2 : rsDataLine l = true
      · simp [scanForRsLine, h1, h2]
      · simp [scanForRsLine, h1, h2, ih]

theorem splitOnChar_ne_nil (sep : Char) (l : List Char) : splitOnChar sep l ≠ [] := by
  induction l with
  | nil => simp [splitOnChar]
  | cons c t ih =>
    by_cases h : c = sep
    · simp [splitOnChar, h]
    · simp only [splitOnChar, h, if_false]
      cases hs : splitOnChar sep t with
      | nil => exact absurd hs ih
      | cons a b => simp

theorem splitOnChar_cons_head (sep c0 : Char) (t : List Char) (h : ¬ c0 = sep) :
    ∃ seg rest, splitOnChar sep (c0 :: t) = (c0 :: seg) :: rest := by
  cases hs : splitOnChar sep t with
  | nil => exact absurd hs (splitOnChar_ne_nil sep t)
  | cons a b =>
    refine ⟨a, b, ?_⟩
    simp [splitOnChar, h, hs]

theorem dropWhile_head_false (p : Char → Bool) (l : List Char) :
    ∀ (c : Char) (t : List Char), l.dropWhile p = c :: t → p c = false := by
  induction l with
  | nil =>
    intro c t h
    simp [List.dropWhile] at h
  | cons x xs ih =>
    intro c t h
    rw [List.dropWhile_cons] at h
    by_cases hx : p x = true
    · rw [if_pos hx] at h
      exact ih c t h
    · rw [if_neg hx] at h
      cases h
      cases hpx : p x
      · rfl
      · exact absurd hpx hx

theorem pyStrip_head_not_space (s : String) (c0 : Char) (t : List Char)
    (h : (pyStrip s).data = c0 :: t) : pyIsSpace c0 = false := by
  unfold pyStrip at h
  exact dropWhile_head_false pyIsSpace _ c0 t h

theorem detectFormatLines_eq_of_head_ne (l0 : String) (rest : List String)
    (h : l0 ≠ "") :
    detectFormatLines (l0 :: rest) = detectFormatSpecLines (l0 :: rest) := by
  have hpred : (!(l0 == "")) = true := by
    simp [h]
  unfold detectFormatLines detectFormatSpecLines
  rw [List.find?_cons_of_pos (p := fun l => !(l == "")) rest hpred, scanForRsLine_eq_any]
  simp

/-- C9 (amended): format detection follows the claimed decision order —
VCF header check first, then the `# rsid` comment header among the
first 50 lines, then any non-comment `rs`-data line, else undetected —
applied to the lines of the whitespace-stripped input text; it is a
pure function of the text. -/
theorem detectFormat_follows_decision_order (content : String) :
    detectFormat content = detectFormatSpecStripped content := by
  unfold detectFormat detectFormatSpecStripped
  by_cases hs : pyStrip content = ""
  · rw [hs]
    decide
  · have hne : (pyStrip content).data ≠ [] := by
      intro h
      exact hs (String.ext (by rw [h]))
    obtain ⟨c0, t, hd⟩ := List.exists_cons_of_ne_nil hne
    have hc0 : pyIsSpace c0 = false := pyStrip_head_not_space content c0 t hd
    have hc0n : ¬ c0 = '\n' := by
      intro h
      rw [h] at hc0
      simp [pyIsSpace] at hc0
    obtain ⟨seg, rest, hsplit⟩ := splitOnChar_cons_head '\n' c0 t hc0n
    have hlines : pySplit '\n' (pyStrip content)
        = ⟨c0 :: seg⟩ :: rest.map (fun l => (⟨l⟩ : String)) := by
      unfold pySplit
      rw [hd, hsplit]
      rfl
    rw [hlines]
    apply detectFormatLines_eq_of_head_ne
    intro h
    have := congrArg String.data h
    simp at this
